import Mathlib

/-!
Shallow embedding of `shell/platform/common/cpp/client_wrapper/plugin_registrar.cc`.

The file wraps a C-style host API (`FlutterDesktopMessenger*`,
`FlutterDesktop*ExternalTexture*`) into the object-oriented `BinaryMessenger` /
`TextureRegistrar` interfaces.  The host API is external to the wrapper, so
calls into it are modelled as emitted events (`HostCall`), and the pieces of
host behaviour the spec describes (the callback registry kept by
`FlutterDesktopMessengerSetCallback`, inbound dispatch, external-texture
registration) are modelled separately and marked as such.

Conventions of the embedding:
* `FlutterDesktopMessengerRef` is an opaque reference, modelled as `Nat`.
* Byte buffers (`const uint8_t*`) are modelled as `List Nat`; the separate
  size argument is carried alongside, exactly as in the C signatures.
* A `BinaryMessageHandler` is a caller-supplied `std::function` value that the
  wrapper stores and invokes but never inspects; it is modelled by an opaque
  identity (`Nat`).  The empty `std::function` tested by `if (!handler)` is
  modelled by wrapping the argument in `Option`.
* `std::map<std::string, BinaryMessageHandler>` stores each mapped value at a
  node whose address is stable while the key stays in the map (assignment via
  `operator[]` to an existing key reuses the node).  `HandlerMap` models this
  with an explicit address per entry: replacing a key's handler keeps the
  entry's address, inserting a fresh key allocates a fresh address.
* The mutable lambda built by `ForwardToHandler` captures `messenger` and
  `response_handle` by value; `ReplyClosure` is that captured state, and
  invoking it returns the updated captured state plus the host calls and
  diagnostics (`std::cerr` lines) it produced.
-/

/-- Address of a stored handler inside the messenger's handler map
(the `void* user_data` passed to the host). -/
abbrev Addr := Nat

/-- Opaque identity of a caller-supplied (non-empty) `std::function`
message handler. -/
abbrev BinaryMessageHandler := Nat

/-- A call made by the wrapper into the C host API. -/
inductive HostCall where
  | messengerSend (messenger : Nat) (channel : String)
      (message : List Nat) (message_size : Nat)
  | sendResponse (messenger : Nat) (response_handle : Nat)
      (reply : List Nat) (reply_size : Nat)
  | setCallback (messenger : Nat) (channel : String) (context : Option Addr)
  deriving DecidableEq, Repr

/-- The `FlutterDesktopMessage` struct: byte buffer, its size, and the
message's response handle (an opaque host token, modelled as `Nat`). -/
structure FlutterDesktopMessage where
  message : List Nat
  message_size : Nat
  response_handle : Nat
  deriving DecidableEq, Repr

/-- The state captured by value in the mutable reply lambda built by
`ForwardToHandler`: the messenger reference and the (nullable) response
handle.  `none` models the nulled-out handle. -/
structure ReplyClosure where
  messenger : Nat
  response_handle : Option Nat
  deriving DecidableEq, Repr

/-- Result of one invocation of the reply lambda: its updated captured state,
the host calls it made, and the diagnostics it wrote to `std::cerr`. -/
structure ReplyResult where
  closure : ReplyClosure
  calls : List HostCall
  diagnostics : List String
  deriving DecidableEq, Repr

/-- The diagnostic the reply lambda prints on a duplicate invocation. -/
def duplicateResponseError : String :=
  "Error: Response can be set only once. Ignoring duplicate response."

/-- One invocation of the reply lambda: if the captured handle is already
null it reports the duplicate and returns; otherwise it sends the response
on the handle and nulls the captured handle. -/
def ReplyClosure.invoke (c : ReplyClosure) (reply : List Nat)
    (reply_size : Nat) : ReplyResult :=
  match c.response_handle with
  | none => ⟨c, [], [duplicateResponseError]⟩
  | some h =>
      ⟨⟨c.messenger, none⟩,
       [HostCall.sendResponse c.messenger h reply reply_size], []⟩

/-- A sequence of invocations of the (copied-along) reply lambda, returning
the final captured state and all host calls made. -/
def ReplyClosure.invokeAll (c : ReplyClosure) :
    List (List Nat × Nat) → ReplyClosure × List HostCall
  | [] => (c, [])
  | (b, l) :: rest =>
      let r := c.invoke b l
      let tail := r.closure.invokeAll rest
      (tail.1, r.calls ++ tail.2)

/-- The reply closure as `ForwardToHandler` constructs it for a message:
messenger reference and the message's response handle, both captured by
value. -/
def mkReply (messenger : Nat) (response_handle : Nat) : ReplyClosure :=
  ⟨messenger, some response_handle⟩

/-- One entry of the messenger's `std::map`: the channel key, the stable
address of the stored handler (the map node), and the handler value. -/
structure HandlerEntry where
  key : String
  addr : Addr
  handler : BinaryMessageHandler
  deriving DecidableEq, Repr

/-- `std::map` lookup by key: first entry whose key matches. -/
def findEntry (k : String) : List HandlerEntry → Option HandlerEntry
  | [] => none
  | e :: rest => if e.key = k then some e else findEntry k rest

/-- Dereference a handler address (`*static_cast<BinaryMessageHandler*>`):
first entry stored at that address. -/
def derefEntry (a : Addr) : List HandlerEntry → Option BinaryMessageHandler
  | [] => none
  | e :: rest => if e.addr = a then some e.handler else derefEntry a rest

/-- `std::map::erase(key)`: drop the entry (entries) with that key. -/
def eraseEntries (k : String) : List HandlerEntry → List HandlerEntry
  | [] => []
  | e :: rest =>
      if e.key = k then eraseEntries k rest else e :: eraseEntries k rest

/-- `handlers_[channel] = handler` on a key already present: replace the
handler stored at the existing node, keeping the node (its key and
address). -/
def replaceList (k : String) (h : BinaryMessageHandler) :
    List HandlerEntry → List HandlerEntry
  | [] => []
  | e :: rest =>
      if e.key = k then ⟨k, e.addr, h⟩ :: rest
      else e :: replaceList k h rest

/-- The `handlers_` map together with its address allocator. -/
structure HandlerMap where
  entries : List HandlerEntry
  nextAddr : Addr
  deriving DecidableEq, Repr

/-- Map lookup by channel key. -/
def HandlerMap.find (m : HandlerMap) (k : String) : Option HandlerEntry :=
  findEntry k m.entries

/-- Dereference a stored-handler address in the map. -/
def HandlerMap.deref (m : HandlerMap) (a : Addr) :
    Option BinaryMessageHandler :=
  derefEntry a m.entries

/-- `handlers_[channel] = std::move(handler)` followed by taking
`&handlers_[channel]`: store the handler and return the stable address of
the stored entry.  An existing key keeps its node address; a fresh key gets
a fresh node. -/
def HandlerMap.store (m : HandlerMap) (k : String) (h : BinaryMessageHandler) :
    HandlerMap × Addr :=
  match findEntry k m.entries with
  | some e => (⟨replaceList k h m.entries, m.nextAddr⟩, e.addr)
  | none => (⟨⟨k, m.nextAddr, h⟩ :: m.entries, m.nextAddr + 1⟩, m.nextAddr)

/-- `handlers_.erase(channel)`. -/
def HandlerMap.erase (m : HandlerMap) (k : String) : HandlerMap :=
  ⟨eraseEntries k m.entries, m.nextAddr⟩

/-- Distinctness of map entries: keys are unique (`std::map`) and node
addresses are unique (distinct live objects). -/
@[reducible] def entriesDistinct (l : List HandlerEntry) : Prop :=
  l.Pairwise (fun e1 e2 => e1.key ≠ e2.key ∧ e1.addr ≠ e2.addr)

/-- Well-formedness of the handler map: entries distinct and every live
address below the allocator's next address.  Holds of the empty map and is
preserved by `store` and `erase`. -/
@[reducible] def HandlerMap.WF (m : HandlerMap) : Prop :=
  entriesDistinct m.entries ∧ ∀ e ∈ m.entries, e.addr < m.nextAddr

/-- `BinaryMessengerImpl`: the wrapped host messenger reference and the
channel-to-handler map. -/
structure BinaryMessengerImpl where
  messenger_ : Nat
  handlers_ : HandlerMap
  deriving DecidableEq, Repr

/-- `BinaryMessengerImpl::Send` (a `const` method): one unconditional
`FlutterDesktopMessengerSend` call; the messenger state is untouched. -/
def BinaryMessengerImpl.Send (bm : BinaryMessengerImpl) (channel : String)
    (message : List Nat) (message_size : Nat) :
    BinaryMessengerImpl × List HostCall :=
  (bm, [HostCall.messengerSend bm.messenger_ channel message message_size])

/-- `BinaryMessengerImpl::SetMessageHandler`: an empty handler erases the
map entry and clears the host callback (`nullptr` callback and context);
otherwise the handler is stored first and the adaptor is then registered
with the host, with the stored entry's address as context. -/
def BinaryMessengerImpl.SetMessageHandler (bm : BinaryMessengerImpl)
    (channel : String) (handler : Option BinaryMessageHandler) :
    BinaryMessengerImpl × List HostCall :=
  match handler with
  | none =>
      ({ bm with handlers_ := bm.handlers_.erase channel },
       [HostCall.setCallback bm.messenger_ channel none])
  | some h =>
      let sa := bm.handlers_.store channel h
      ({ bm with handlers_ := sa.1 },
       [HostCall.setCallback bm.messenger_ channel (some sa.2)])

/-- The handler call `message_handler(message->message, message->message_size,
std::move(reply_handler))` as performed by the dispatch adaptor: which
handler was invoked, with which bytes and size, and with which reply
closure. -/
structure HandlerInvocation where
  handler : BinaryMessageHandler
  message : List Nat
  message_size : Nat
  reply : ReplyClosure
  deriving DecidableEq, Repr

/-- `ForwardToHandler`: dereference the `user_data` pointer to the stored
handler (through the messenger's map, which owns the pointed-to storage),
build the reply closure for the message, and invoke the handler exactly
once.  Returns the handler invocations performed and the host calls the
adaptor itself makes (none).  A dangling `user_data` would be undefined
behaviour in the source; it is modelled as no invocation and never arises
in the maintained states. -/
def ForwardToHandler (bm : BinaryMessengerImpl)
    (message : FlutterDesktopMessage) (user_data : Addr) :
    List HandlerInvocation × List HostCall :=
  match bm.handlers_.deref user_data with
  | some message_handler =>
      ([⟨message_handler, message.message, message.message_size,
         mkReply bm.messenger_ message.response_handle⟩], [])
  | none => ([], [])

/-- Modelled from the spec: the host transport's per-channel callback
registry, as mutated by `FlutterDesktopMessengerSetCallback` (whose
implementation is not part of these sources).  A registered channel holds
the opaque context pointer; a null callback clears the registration. -/
structure HostState where
  callbacks : List (String × Addr)
  deriving DecidableEq, Repr

/-- Remove a channel's registration from the host registry. -/
def removeCallback (channel : String) :
    List (String × Addr) → List (String × Addr)
  | [] => []
  | c :: rest =>
      if c.1 = channel then removeCallback channel rest
      else c :: removeCallback channel rest

/-- Look up a channel's registered context in the host registry. -/
def lookupCallback (channel : String) : List (String × Addr) → Option Addr
  | [] => none
  | c :: rest => if c.1 = channel then some c.2 else lookupCallback channel rest

/-- Modelled from the spec: the host's reaction to one wrapper call.  Only
`FlutterDesktopMessengerSetCallback` mutates the registry: a non-null
callback (re)registers the channel with its context, a null callback
unregisters it; sends do not change the registry. -/
def HostState.apply (host : HostState) : HostCall → HostState
  | HostCall.setCallback _ channel (some a) =>
      ⟨(channel, a) :: removeCallback channel host.callbacks⟩
  | HostCall.setCallback _ channel none =>
      ⟨removeCallback channel host.callbacks⟩
  | _ => host

/-- The host's reaction to a sequence of wrapper calls. -/
def HostState.applyAll (host : HostState) (calls : List HostCall) : HostState :=
  calls.foldl HostState.apply host

/-- Modelled from the spec: inbound dispatch by the host transport.  A
message on a registered channel is handed to the registered adaptor
(`ForwardToHandler`) with the registered context; a message on an
unregistered channel is dropped. -/
def deliverMessage (bm : BinaryMessengerImpl) (host : HostState)
    (channel : String) (message : FlutterDesktopMessage) :
    List HandlerInvocation × List HostCall :=
  match lookupCallback channel host.callbacks with
  | none => ([], [])
  | some a => ForwardToHandler bm message a

/-- A pixel buffer as produced by a texture. -/
structure PixelBuffer where
  width : Nat
  height : Nat
  pixels : List Nat

/-- A `Texture`: an external pixel source whose `CopyPixelBuffer` method
produces a buffer for a requested size. -/
structure Texture where
  copyPixelBuffer : Nat → Nat → PixelBuffer

/-- The `FlutterTexutreCallback` function-pointer type (the source's
spelling): width, height and the opaque `user_data` (the texture). -/
abbrev FlutterTexutreCallback := Nat → Nat → Texture → PixelBuffer

/-- Modelled from the spec: the host compositor's external-texture registry
(`FlutterDesktopRegisterExternalTexture` is not part of these sources).
It assigns non-negative identifiers in sequence and retains the pixel-fetch
callback and its context. -/
structure TextureHost where
  nextId : Nat
  registered : List (Int × FlutterTexutreCallback × Texture)

/-- Modelled from the spec: `FlutterDesktopRegisterExternalTexture` stores
the callback/context pair and returns a host-assigned non-negative
identifier. -/
def FlutterDesktopRegisterExternalTexture (host : TextureHost)
    (callback : FlutterTexutreCallback) (user_data : Texture) :
    TextureHost × Int :=
  let texture_id : Int := Int.ofNat host.nextId
  (⟨host.nextId + 1, (texture_id, callback, user_data) :: host.registered⟩,
   texture_id)

/-- `TextureRegistrarImpl`: the wrapped host texture-registrar reference. -/
structure TextureRegistrarImpl where
  texture_registrar_ref_ : Nat

/-- `TextureRegistrarImpl::RegisterTexture`: build the pixel-fetch lambda
that forwards width and height to the texture's `CopyPixelBuffer`, register
it with the host with the texture as context, and return the host-assigned
identifier. -/
def TextureRegistrarImpl.RegisterTexture (_tr : TextureRegistrarImpl)
    (host : TextureHost) (texture : Texture) : TextureHost × Int :=
  let callback : FlutterTexutreCallback :=
    fun width height user_data => user_data.copyPixelBuffer width height
  FlutterDesktopRegisterExternalTexture host callback texture

/-! ### Lemmas about the handler map -/

theorem findEntry_mem (k : String) :
    ∀ l e, findEntry k l = some e → e ∈ l ∧ e.key = k := by
  intro l
  induction l with
  | nil => intro e he; simp [findEntry] at he
  | cons e0 rest ih =>
    intro e he
    by_cases hk : e0.key = k
    · simp [findEntry, hk] at he
      subst he
      exact ⟨List.mem_cons_self _ _, hk⟩
    · simp [findEntry, hk] at he
      obtain ⟨hmem, hkey⟩ := ih e he
      exact ⟨List.mem_cons_of_mem _ hmem, hkey⟩

theorem findEntry_none_key (k : String) :
    ∀ l, findEntry k l = none → ∀ e ∈ l, e.key ≠ k := by
  intro l
  induction l with
  | nil => intro _ e he; simp at he
  | cons e0 rest ih =>
    intro hn e he
    by_cases hk : e0.key = k
    · simp [findEntry, hk] at hn
    · simp [findEntry, hk] at hn
      rcases List.mem_cons.mp he with h0 | hrest
      · subst h0; exact hk
      · exact ih hn e hrest

theorem findEntry_replaceList_self (k : String) (h : BinaryMessageHandler) :
    ∀ l e, findEntry k l = some e →
      findEntry k (replaceList k h l) = some ⟨k, e.addr, h⟩ := by
  intro l
  induction l with
  | nil => intro e he; simp [findEntry] at he
  | cons e0 rest ih =>
    intro e he
    by_cases hk : e0.key = k
    · simp [findEntry, hk] at he
      subst he
      simp [replaceList, hk, findEntry]
    · simp [findEntry, hk] at he
      simp [replaceList, hk, findEntry]
      exact ih e he

theorem findEntry_replaceList_other (k d : String) (hne : d ≠ k)
    (h : BinaryMessageHandler) :
    ∀ l, findEntry d (replaceList k h l) = findEntry d l := by
  intro l
  induction l with
  | nil => simp [replaceList]
  | cons e0 rest ih =>
    have hkd : ¬ k = d := fun hc => hne hc.symm
    by_cases hk : e0.key = k
    · have hd : ¬ e0.key = d := by rw [hk]; exact hkd
      simp [replaceList, hk, findEntry, hd, hkd]
    · by_cases hd : e0.key = d
      · simp [replaceList, hk, findEntry, hd, hne]
      · simp [replaceList, hk, findEntry, hd, ih]

theorem replaceList_mem_spec (k : String) (h : BinaryMessageHandler) :
    ∀ l, ∀ x ∈ replaceList k h l,
      ∃ y ∈ l, x.addr = y.addr ∧ (x.key = y.key ∨ x.key = k) := by
  intro l
  induction l with
  | nil => intro x hx; simp [replaceList] at hx
  | cons e0 rest ih =>
    intro x hx
    by_cases hk : e0.key = k
    · simp only [replaceList, if_pos hk] at hx
      rcases List.mem_cons.mp hx with h0 | hrest
      · subst h0
        exact ⟨e0, List.mem_cons_self _ _, rfl, Or.inr rfl⟩
      · exact ⟨x, List.mem_cons_of_mem _ hrest, rfl, Or.inl rfl⟩
    · simp only [replaceList, if_neg hk] at hx
      rcases List.mem_cons.mp hx with h0 | hrest
      · exact ⟨e0, List.mem_cons_self _ _, by rw [h0], Or.inl (by rw [h0])⟩
      · obtain ⟨y, hy, ha, hkey⟩ := ih x hrest
        exact ⟨y, List.mem_cons_of_mem _ hy, ha, hkey⟩

theorem entriesDistinct_replaceList (k : String) (h : BinaryMessageHandler) :
    ∀ l, entriesDistinct l → entriesDistinct (replaceList k h l) := by
  intro l
  induction l with
  | nil => intro _; simp [replaceList]
  | cons e0 rest ih =>
    intro hd
    rw [entriesDistinct, List.pairwise_cons] at hd
    obtain ⟨hrel, hpw⟩ := hd
    by_cases hk : e0.key = k
    · simp only [replaceList, if_pos hk]
      rw [entriesDistinct, List.pairwise_cons]
      refine ⟨?_, hpw⟩
      intro y hy
      have := hrel y hy
      exact ⟨by rw [← hk]; exact this.1, this.2⟩
    · simp only [replaceList, if_neg hk]
      rw [entriesDistinct, List.pairwise_cons]
      refine ⟨?_, ih hpw⟩
      intro y hy
      obtain ⟨y0, hy0, ha, hkey⟩ := replaceList_mem_spec k h rest y hy
      have hr := hrel y0 hy0
      refine ⟨?_, by rw [ha]; exact hr.2⟩
      rcases hkey with hsame | hrepl
      · rw [hsame]; exact hr.1
      · rw [hrepl]; exact fun hc => hk hc

theorem derefEntry_replaceList (k : String) (h : BinaryMessageHandler) :
    ∀ l e, entriesDistinct l → findEntry k l = some e →
      derefEntry e.addr (replaceList k h l) = some h := by
  intro l
  induction l with
  | nil => intro e _ he; simp [findEntry] at he
  | cons e0 rest ih =>
    intro e hd he
    rw [entriesDistinct, List.pairwise_cons] at hd
    obtain ⟨hrel, hpw⟩ := hd
    by_cases hk : e0.key = k
    · simp [findEntry, hk] at he
      subst he
      simp [replaceList, hk, derefEntry]
    · simp [findEntry, hk] at he
      have hmem := (findEntry_mem k rest e he).1
      have hane : ¬ e0.addr = e.addr := (hrel e hmem).2
      simp [replaceList, hk, derefEntry, hane]
      exact ih e hpw he

theorem findEntry_erase_self (k : String) :
    ∀ l, findEntry k (eraseEntries k l) = none := by
  intro l
  induction l with
  | nil => simp [eraseEntries, findEntry]
  | cons e0 rest ih =>
    by_cases hk : e0.key = k
    · simp [eraseEntries, hk, ih]
    · simp [eraseEntries, findEntry, hk, ih]

theorem findEntry_erase_other (k d : String) (hne : d ≠ k) :
    ∀ l, findEntry d (eraseEntries k l) = findEntry d l := by
  intro l
  induction l with
  | nil => simp [eraseEntries]
  | cons e0 rest ih =>
    have hkd : ¬ k = d := fun hc => hne hc.symm
    by_cases hk : e0.key = k
    · have hd : ¬ e0.key = d := by rw [hk]; exact hkd
      simp [eraseEntries, hk, findEntry, hd, hkd, ih]
    · by_cases hd : e0.key = d
      · simp [eraseEntries, hk, findEntry, hd, hne]
      · simp [eraseEntries, hk, findEntry, hd, ih]

theorem find_store_self (m : HandlerMap) (k : String)
    (h : BinaryMessageHandler) :
    ((m.store k h).1).find k = some ⟨k, (m.store k h).2, h⟩ := by
  cases hf : findEntry k m.entries with
  | some e =>
      simp [HandlerMap.store, hf, HandlerMap.find]
      exact findEntry_replaceList_self k h m.entries e hf
  | none =>
      simp [HandlerMap.store, hf, HandlerMap.find, findEntry]

theorem find_store_other (m : HandlerMap) (k d : String) (hne : d ≠ k)
    (h : BinaryMessageHandler) :
    ((m.store k h).1).find d = m.find d := by
  cases hf : findEntry k m.entries with
  | some e =>
      simp [HandlerMap.store, hf, HandlerMap.find]
      exact findEntry_replaceList_other k d hne h m.entries
  | none =>
      have hkd : ¬ k = d := fun hc => hne hc.symm
      simp [HandlerMap.store, hf, HandlerMap.find, findEntry, hkd]

theorem deref_store (m : HandlerMap) (hwf : m.WF) (k : String)
    (h : BinaryMessageHandler) :
    ((m.store k h).1).deref ((m.store k h).2) = some h := by
  cases hf : findEntry k m.entries with
  | some e =>
      simp [HandlerMap.store, hf, HandlerMap.deref]
      exact derefEntry_replaceList k h m.entries e hwf.1 hf
  | none =>
      simp [HandlerMap.store, hf, HandlerMap.deref, derefEntry]

theorem store_addr_of_find (m : HandlerMap) (k : String) (e : HandlerEntry)
    (hf : m.find k = some e) (h : BinaryMessageHandler) :
    (m.store k h).2 = e.addr := by
  rw [HandlerMap.find] at hf
  simp [HandlerMap.store, hf]

theorem WF_store (m : HandlerMap) (k : String) (h : BinaryMessageHandler)
    (hwf : m.WF) : ((m.store k h).1).WF := by
  obtain ⟨hd, hb⟩ := hwf
  cases hf : findEntry k m.entries with
  | some e =>
      simp only [HandlerMap.store, hf]
      refine ⟨entriesDistinct_replaceList k h m.entries hd, ?_⟩
      intro x hx
      obtain ⟨y, hy, ha, _⟩ := replaceList_mem_spec k h m.entries x hx
      rw [ha]
      exact hb y hy
  | none =>
      simp only [HandlerMap.store, hf]
      refine ⟨?_, ?_⟩
      · rw [entriesDistinct, List.pairwise_cons]
        refine ⟨?_, hd⟩
        intro y hy
        exact ⟨fun hc => (findEntry_none_key k m.entries hf y hy) hc.symm,
               (ne_of_lt (hb y hy)).symm⟩
      · intro x hx
        rcases List.mem_cons.mp hx with h0 | hrest
        · rw [h0]; exact Nat.lt_succ_self _
        · exact Nat.lt_succ_of_lt (hb x hrest)

theorem lookupCallback_remove_self (c : String) :
    ∀ l, lookupCallback c (removeCallback c l) = none := by
  intro l
  induction l with
  | nil => simp [removeCallback, lookupCallback]
  | cons p rest ih =>
    by_cases hc : p.1 = c
    · simp [removeCallback, hc, ih]
    · simp [removeCallback, lookupCallback, hc, ih]

theorem invokeAll_consumed (m : Nat) :
    ∀ reqs, ReplyClosure.invokeAll ⟨m, none⟩ reqs = (⟨m, none⟩, []) := by
  intro reqs
  induction reqs with
  | nil => rfl
  | cons r rest ih =>
    cases r with
    | mk b l => simp [ReplyClosure.invokeAll, ReplyClosure.invoke, ih]

/-- If the dispatch adaptor performed an invocation, the reply closure it
handed to the handler is the one built from the messenger reference and the
message's response handle. -/
theorem ForwardToHandler_reply (bm : BinaryMessengerImpl)
    (msg : FlutterDesktopMessage) (ud : Addr) (inv : HandlerInvocation)
    (hinv : (ForwardToHandler bm msg ud).1 = [inv]) :
    inv.reply = mkReply bm.messenger_ msg.response_handle := by
  cases hdr : bm.handlers_.deref ud with
  | none => simp [ForwardToHandler, hdr] at hinv
  | some mh =>
      simp [ForwardToHandler, hdr] at hinv
      rw [← hinv]

/-- A concrete messenger for exercising the theorems: host reference `7`,
one handler (identity `42`) stored for channel `"ch"` at address `0`. -/
def exampleMessenger : BinaryMessengerImpl :=
  ⟨7, ⟨[⟨"ch", 0, 42⟩], 1⟩⟩

/-- A concrete inbound message: bytes `[1, 2]`, size `2`, response
handle `5`. -/
def exampleMessage : FlutterDesktopMessage := ⟨[1, 2], 2, 5⟩

/-- C1: for every inbound message, invoking the reply callback produced by
the dispatch adaptor twice makes exactly one send-response call to the host
transport: the first invocation sends the given bytes and length, emits no
diagnostic, and nulls (consumes) the captured response handle; the second
invocation makes no host call and reports the duplicate-reply diagnostic. -/
theorem C1_reply_invoked_twice_sends_once (bm : BinaryMessengerImpl)
    (msg : FlutterDesktopMessage) (ud : Addr) (inv : HandlerInvocation)
    (hinv : (ForwardToHandler bm msg ud).1 = [inv])
    (b1 : List Nat) (l1 : Nat) (b2 : List Nat) (l2 : Nat) :
    (inv.reply.invoke b1 l1).calls
        = [HostCall.sendResponse bm.messenger_ msg.response_handle b1 l1] ∧
    (inv.reply.invoke b1 l1).diagnostics = [] ∧
    (inv.reply.invoke b1 l1).closure.response_handle = none ∧
    ((inv.reply.invoke b1 l1).closure.invoke b2 l2).calls = [] ∧
    ((inv.reply.invoke b1 l1).closure.invoke b2 l2).diagnostics
        = [duplicateResponseError] := by
  rw [ForwardToHandler_reply bm msg ud inv hinv]
  simp [mkReply, ReplyClosure.invoke]

/-- Witness for C1: the concrete messenger and message, replying twice. -/
theorem C1_reply_invoked_twice_sends_once_witness :
    (ForwardToHandler exampleMessenger exampleMessage 0).1
        = [⟨42, [1, 2], 2, ⟨7, some 5⟩⟩] ∧
    (((⟨42, [1, 2], 2, ⟨7, some 5⟩⟩ : HandlerInvocation).reply.invoke [9] 1).calls
        = [HostCall.sendResponse exampleMessenger.messenger_
            exampleMessage.response_handle [9] 1] ∧
    ((⟨42, [1, 2], 2, ⟨7, some 5⟩⟩ : HandlerInvocation).reply.invoke
        [9] 1).diagnostics = [] ∧
    ((⟨42, [1, 2], 2, ⟨7, some 5⟩⟩ : HandlerInvocation).reply.invoke
        [9] 1).closure.response_handle = none ∧
    (((⟨42, [1, 2], 2, ⟨7, some 5⟩⟩ : HandlerInvocation).reply.invoke
        [9] 1).closure.invoke [8] 1).calls = [] ∧
    (((⟨42, [1, 2], 2, ⟨7, some 5⟩⟩ : HandlerInvocation).reply.invoke
        [9] 1).closure.invoke [8] 1).diagnostics
        = [duplicateResponseError]) :=
  ⟨by decide,
   C1_reply_invoked_twice_sends_once exampleMessenger exampleMessage 0
     ⟨42, [1, 2], 2, ⟨7, some 5⟩⟩ (by decide) [9] 1 [8] 1⟩

/-- C6: a reply callback that the handler stored and only invokes later
(deferred reply) still results in exactly one send-response call, with the
supplied bytes and length; across the whole sequence of invocations it fires
at most once. -/
theorem C6_deferred_reply_sends_once (bm : BinaryMessengerImpl)
    (msg : FlutterDesktopMessage) (ud : Addr) (inv : HandlerInvocation)
    (hinv : (ForwardToHandler bm msg ud).1 = [inv])
    (b : List Nat) (l : Nat) (laterReqs : List (List Nat × Nat)) :
    (inv.reply.invokeAll ((b, l) :: laterReqs)).2
      = [HostCall.sendResponse bm.messenger_ msg.response_handle b l] := by
  rw [ForwardToHandler_reply bm msg ud inv hinv]
  simp [mkReply, ReplyClosure.invokeAll, ReplyClosure.invoke, invokeAll_consumed]

/-- Witness for C6: the concrete messenger and message, with the reply
deferred past two further (ignored) invocations. -/
theorem C6_deferred_reply_sends_once_witness :
    (ForwardToHandler exampleMessenger exampleMessage 0).1
        = [⟨42, [1, 2], 2, ⟨7, some 5⟩⟩] ∧
    ((⟨42, [1, 2], 2, ⟨7, some 5⟩⟩ : HandlerInvocation).reply.invokeAll
        (([3, 4], 2) :: [([6], 1), ([], 0)])).2
      = [HostCall.sendResponse exampleMessenger.messenger_
          exampleMessage.response_handle [3, 4] 2] :=
  ⟨by decide,
   C6_deferred_reply_sends_once exampleMessenger exampleMessage 0
     ⟨42, [1, 2], 2, ⟨7, some 5⟩⟩ (by decide) [3, 4] 2 [([6], 1), ([], 0)]⟩

/-- C7: `Send` forwards the bytes unconditionally to the host transport's
send function on the named channel, returns no value, and performs no other
state change: the messenger is returned unchanged and the single
`FlutterDesktopMessengerSend` call is the only effect. -/
theorem C7_send_forwards_unconditionally (bm : BinaryMessengerImpl)
    (channel : String) (message : List Nat) (message_size : Nat) :
    bm.Send channel message message_size
      = (bm, [HostCall.messengerSend bm.messenger_ channel message
              message_size]) := rfl

/-- C10: the reply closure captures the response handle by value in its own
mutable state, so consuming the handle in one closure instance does not
propagate to a copy taken before any send: each copy can still perform one
send with the same response handle. -/
theorem C10_copies_guard_independently (m rh : Nat) (b1 : List Nat) (l1 : Nat)
    (b2 : List Nat) (l2 : Nat) :
    ((mkReply m rh).invoke b1 l1).calls
        = [HostCall.sendResponse m rh b1 l1] ∧
    ((mkReply m rh).invoke b1 l1).closure.response_handle = none ∧
    ((mkReply m rh).invoke b2 l2).calls
        = [HostCall.sendResponse m rh b2 l2] ∧
    ((mkReply m rh).invoke b2 l2).closure.response_handle = none := by
  simp [mkReply, ReplyClosure.invoke]

/-- C2: `SetMessageHandler` with a non-empty handler stores the handler in
the map, and the context passed to the host registration is the address of
the stored map entry; that address already resolves to the stored handler
when the registration call is made (store happens before registration), and
the same address stays in place when a later call replaces the handler for
the same channel. -/
theorem C2_stored_handler_address_stable (bm : BinaryMessengerImpl)
    (hwf : bm.handlers_.WF) (c : String) (h1 h2 : BinaryMessageHandler) :
    ∃ a : Addr,
      ((bm.SetMessageHandler c (some h1)).1).handlers_.find c
          = some ⟨c, a, h1⟩ ∧
      (bm.SetMessageHandler c (some h1)).2
          = [HostCall.setCallback bm.messenger_ c (some a)] ∧
      ((bm.SetMessageHandler c (some h1)).1).handlers_.deref a = some h1 ∧
      (((bm.SetMessageHandler c (some h1)).1).SetMessageHandler c
          (some h2)).1.handlers_.find c = some ⟨c, a, h2⟩ ∧
      (((bm.SetMessageHandler c (some h1)).1).SetMessageHandler c
          (some h2)).2 = [HostCall.setCallback bm.messenger_ c (some a)] ∧
      (((bm.SetMessageHandler c (some h1)).1).SetMessageHandler c
          (some h2)).1.handlers_.deref a = some h2 := by
  have ha1 := find_store_self bm.handlers_ c h1
  have haddr := store_addr_of_find (bm.handlers_.store c h1).1 c
      ⟨c, (bm.handlers_.store c h1).2, h1⟩ ha1 h2
  refine ⟨(bm.handlers_.store c h1).2, ?_, ?_, ?_, ?_, ?_, ?_⟩
  · simpa [BinaryMessengerImpl.SetMessageHandler] using ha1
  · simp [BinaryMessengerImpl.SetMessageHandler]
  · simpa [BinaryMessengerImpl.SetMessageHandler] using
      deref_store bm.handlers_ hwf c h1
  · have h4 := find_store_self (bm.handlers_.store c h1).1 c h2
    rw [haddr] at h4
    simpa [BinaryMessengerImpl.SetMessageHandler] using h4
  · simp [BinaryMessengerImpl.SetMessageHandler, haddr]
  · have h6 := deref_store (bm.handlers_.store c h1).1
      (WF_store bm.handlers_ c h1 hwf) c h2
    rw [haddr] at h6
    simpa [BinaryMessengerImpl.SetMessageHandler] using h6

/-- Witness for C2: the concrete messenger, replacing the handler already
stored for channel `"ch"` and then replacing it again. -/
theorem C2_stored_handler_address_stable_witness :
    exampleMessenger.handlers_.WF ∧
    (∃ a : Addr,
      ((exampleMessenger.SetMessageHandler "ch" (some 1)).1).handlers_.find
          "ch" = some ⟨"ch", a, 1⟩ ∧
      (exampleMessenger.SetMessageHandler "ch" (some 1)).2
          = [HostCall.setCallback exampleMessenger.messenger_ "ch" (some a)] ∧
      ((exampleMessenger.SetMessageHandler "ch" (some 1)).1).handlers_.deref a
          = some 1 ∧
      (((exampleMessenger.SetMessageHandler "ch" (some 1)).1).SetMessageHandler
          "ch" (some 2)).1.handlers_.find "ch" = some ⟨"ch", a, 2⟩ ∧
      (((exampleMessenger.SetMessageHandler "ch" (some 1)).1).SetMessageHandler
          "ch" (some 2)).2
          = [HostCall.setCallback exampleMessenger.messenger_ "ch" (some a)] ∧
      (((exampleMessenger.SetMessageHandler "ch" (some 1)).1).SetMessageHandler
          "ch" (some 2)).1.handlers_.deref a = some 2) :=
  ⟨by decide,
   C2_stored_handler_address_stable exampleMessenger (by decide) "ch" 1 2⟩

/-- C3: after `SetMessageHandler` installs a handler for a channel, an
inbound message delivered by the host on that channel results in exactly one
invocation of that handler, with exactly the message's bytes and length and
a reply closure bound to the message's response handle, and the adaptor
itself makes no host call. -/
theorem C3_inbound_message_invokes_handler_once (bm : BinaryMessengerImpl)
    (hwf : bm.handlers_.WF) (host : HostState) (c : String)
    (h : BinaryMessageHandler) (msg : FlutterDesktopMessage) :
    deliverMessage (bm.SetMessageHandler c (some h)).1
        (host.applyAll (bm.SetMessageHandler c (some h)).2) c msg
      = ([⟨h, msg.message, msg.message_size,
           mkReply bm.messenger_ msg.response_handle⟩], []) := by
  simp only [BinaryMessengerImpl.SetMessageHandler, HostState.applyAll,
    List.foldl, HostState.apply, deliverMessage, lookupCallback, if_pos]
  simp [ForwardToHandler, deref_store bm.handlers_ hwf c h]

/-- Witness for C3: the concrete messenger and message on channel `"ping"`
with handler `9`, starting from an empty host registry. -/
theorem C3_inbound_message_invokes_handler_once_witness :
    exampleMessenger.handlers_.WF ∧
    deliverMessage (exampleMessenger.SetMessageHandler "ping" (some 9)).1
        (HostState.applyAll ⟨[]⟩
          (exampleMessenger.SetMessageHandler "ping" (some 9)).2) "ping"
        exampleMessage
      = ([⟨9, exampleMessage.message, exampleMessage.message_size,
           mkReply exampleMessenger.messenger_
             exampleMessage.response_handle⟩], []) :=
  ⟨by decide,
   C3_inbound_message_invokes_handler_once exampleMessenger (by decide)
     ⟨[]⟩ "ping" 9 exampleMessage⟩

/-- C4: setting a second handler on a channel that already has one replaces
it, and a subsequent inbound message on that channel invokes only the new
handler: the delivery produces exactly one invocation and it carries the new
handler, so the displaced handler is never invoked. -/
theorem C4_replacement_routes_to_new_handler (bm : BinaryMessengerImpl)
    (hwf : bm.handlers_.WF) (host : HostState) (c : String)
    (h1 h2 : BinaryMessageHandler) (msg : FlutterDesktopMessage) :
    deliverMessage
        ((bm.SetMessageHandler c (some h1)).1.SetMessageHandler c (some h2)).1
        ((host.applyAll (bm.SetMessageHandler c (some h1)).2).applyAll
          ((bm.SetMessageHandler c (some h1)).1.SetMessageHandler c
            (some h2)).2) c msg
      = ([⟨h2, msg.message, msg.message_size,
           mkReply bm.messenger_ msg.response_handle⟩], []) := by
  simp only [BinaryMessengerImpl.SetMessageHandler, HostState.applyAll,
    List.foldl, HostState.apply, deliverMessage, lookupCallback, if_pos]
  simp [ForwardToHandler,
    deref_store (bm.handlers_.store c h1).1 (WF_store bm.handlers_ c h1 hwf)
      c h2]

/-- Witness for C4: the concrete messenger, replacing handler `9` by `11`
on channel `"ch"` before delivery. -/
theorem C4_replacement_routes_to_new_handler_witness :
    exampleMessenger.handlers_.WF ∧
    deliverMessage
        ((exampleMessenger.SetMessageHandler "ch" (some 9)).1.SetMessageHandler
          "ch" (some 11)).1
        ((HostState.applyAll ⟨[]⟩
            (exampleMessenger.SetMessageHandler "ch" (some 9)).2).applyAll
          ((exampleMessenger.SetMessageHandler "ch"
              (some 9)).1.SetMessageHandler "ch" (some 11)).2) "ch"
        exampleMessage
      = ([⟨11, exampleMessage.message, exampleMessage.message_size,
           mkReply exampleMessenger.messenger_
             exampleMessage.response_handle⟩], []) :=
  ⟨by decide,
   C4_replacement_routes_to_new_handler exampleMessenger (by decide) ⟨[]⟩
     "ch" 9 11 exampleMessage⟩

/-- C5: `SetMessageHandler` with an empty handler removes the stored handler
for the channel, emits exactly one host unregistration (null callback and
context), and a subsequent inbound message on that channel results in no
handler invocation. -/
theorem C5_empty_handler_unregisters (bm : BinaryMessengerImpl)
    (host : HostState) (c : String) (msg : FlutterDesktopMessage) :
    ((bm.SetMessageHandler c none).1).handlers_.find c = none ∧
    (bm.SetMessageHandler c none).2
        = [HostCall.setCallback bm.messenger_ c none] ∧
    deliverMessage (bm.SetMessageHandler c none).1
        (host.applyAll (bm.SetMessageHandler c none).2) c msg = ([], []) := by
  refine ⟨?_, rfl, ?_⟩
  · simp [BinaryMessengerImpl.SetMessageHandler, HandlerMap.find,
      HandlerMap.erase, findEntry_erase_self]
  · simp [BinaryMessengerImpl.SetMessageHandler, HostState.applyAll,
      HostState.apply, deliverMessage, lookupCallback_remove_self]

/-- C9: `SetMessageHandler` on channel `c` changes at most the map entry for
`c`: for any other channel the stored entry (with its address) is unchanged
and the wrapped transport reference is unchanged; `Send` changes no field of
the messenger at all. -/
theorem C9_frame_conditions (bm : BinaryMessengerImpl) (c d : String)
    (hne : d ≠ c) (handler : Option BinaryMessageHandler)
    (message : List Nat) (message_size : Nat) :
    ((bm.SetMessageHandler c handler).1).handlers_.find d
        = bm.handlers_.find d ∧
    ((bm.SetMessageHandler c handler).1).messenger_ = bm.messenger_ ∧
    (bm.Send c message message_size).1 = bm := by
  refine ⟨?_, ?_, rfl⟩
  · cases handler with
    | none =>
        simp [BinaryMessengerImpl.SetMessageHandler, HandlerMap.find,
          HandlerMap.erase, findEntry_erase_other c d hne]
    | some h =>
        simpa [BinaryMessengerImpl.SetMessageHandler] using
          find_store_other bm.handlers_ c d hne h
  · cases handler <;> rfl

/-- Witness for C9: the concrete messenger, registering on `"ch"` while
observing channel `"other"`. -/
theorem C9_frame_conditions_witness :
    "other" ≠ "ch" ∧
    (((exampleMessenger.SetMessageHandler "ch" (some 3)).1).handlers_.find
        "other" = exampleMessenger.handlers_.find "other" ∧
    ((exampleMessenger.SetMessageHandler "ch" (some 3)).1).messenger_
        = exampleMessenger.messenger_ ∧
    (exampleMessenger.Send "ch" [1] 1).1 = exampleMessenger) :=
  ⟨by decide,
   C9_frame_conditions exampleMessenger "ch" "other" (by decide) (some 3)
     [1] 1⟩

/-- C8: `RegisterTexture` registers the texture with the host compositor
through a pixel-fetch callback that forwards the requested width and height
to the texture's pixel-producing method, and returns the identifier obtained
from the host registration call, which is non-negative. -/
theorem C8_register_texture_forwards_and_nonneg (tr : TextureRegistrarImpl)
    (host : TextureHost) (t : Texture) :
    0 ≤ (tr.RegisterTexture host t).2 ∧
    (tr.RegisterTexture host t).2 = Int.ofNat host.nextId ∧
    ∃ cb : FlutterTexutreCallback,
      ((tr.RegisterTexture host t).2, cb, t)
          ∈ (tr.RegisterTexture host t).1.registered ∧
      ∀ w ht u, cb w ht u = u.copyPixelBuffer w ht := by
  refine ⟨Int.ofNat_nonneg host.nextId, rfl,
    fun w ht u => u.copyPixelBuffer w ht, ?_, fun w ht u => rfl⟩
  simp [TextureRegistrarImpl.RegisterTexture,
    FlutterDesktopRegisterExternalTexture]
